import Mathlib

/-!
Verification of the moderation core of `astrbot_plugin_qqadmin`.

The development shallowly embeds the four stateful pieces of
`src/core/banpro_handel.py` and `src/core/join_handle.py`:

* the sliding-window flood detector (`spamming_ban`),
* the per-group single-slot vote-ban protocol
  (`start_vote_mute`, `vote_mute` and the deferred `settle_vote`),
* the join-admission policy (`should_approve` plus the counter-clearing
  caller `event_monitoring`),
* the URL whitelist matcher (`_is_url_whitelisted`),

together with the settings-store interaction of
`handle_spamming_ban_time`.  Wall-clock time is modelled by rationals,
Python strings by `String` over `List Char` with explicit ASCII-faithful
helpers, and each stateful component by a state record plus a pure step
function returning the updated state and the observable outcome.
-/

namespace QQAdmin

/-! ## String primitives

ASCII-faithful models of the Python string operations used by the
source: `str.lower`, prefix test (`str.startswith`), substring test
(`in`), suffix test (`str.endswith`) and "substring up to the first
slash" (`split("/")[0]`). -/

/-- ASCII model of Python `str.lower` on a single character. -/
def lowerChar (c : Char) : Char :=
  match c with
  | 'A' => 'a' | 'B' => 'b' | 'C' => 'c' | 'D' => 'd' | 'E' => 'e' | 'F' => 'f'
  | 'G' => 'g' | 'H' => 'h' | 'I' => 'i' | 'J' => 'j' | 'K' => 'k' | 'L' => 'l'
  | 'M' => 'm' | 'N' => 'n' | 'O' => 'o' | 'P' => 'p' | 'Q' => 'q' | 'R' => 'r'
  | 'S' => 's' | 'T' => 't' | 'U' => 'u' | 'V' => 'v' | 'W' => 'w' | 'X' => 'x'
  | 'Y' => 'y' | 'Z' => 'z'
  | c => c

/-- Python `str.lower` on a character list. -/
def toLowerL (l : List Char) : List Char := l.map lowerChar

/-- `isPrefixL pat l` is Python `l.startswith(pat)`. -/
def isPrefixL : List Char → List Char → Bool
  | [], _ => true
  | _ :: _, [] => false
  | a :: pat, b :: l => a == b && isPrefixL pat l

/-- `isSuffixL pat l` is Python `l.endswith(pat)`. -/
def isSuffixL (pat l : List Char) : Bool := isPrefixL pat.reverse l.reverse

/-- `containsL hay needle` is Python `needle in hay` (substring test). -/
def containsL : List Char → List Char → Bool
  | hay, needle =>
    isPrefixL needle hay ||
      match hay with
      | [] => false
      | _ :: t => containsL t needle

/-! ## LinkGuard: `_is_url_whitelisted` (banpro_handel.py, lines 393-412) -/

/-- The domain the source extracts from a URL: lowercase the whole URL,
strip a leading `http://` or `https://`, then keep everything up to the
first `/` (Python `url_lower.split("/")[0]`). -/
def url_domain (url : String) : List Char :=
  let url_lower := toLowerL url.data
  let stripped :=
    if isPrefixL "http://".data url_lower then url_lower.drop 7
    else if isPrefixL "https://".data url_lower then url_lower.drop 8
    else url_lower
  stripped.takeWhile (fun c => c != '/')

/-- `_is_url_whitelisted(url, whitelist)`: the extracted domain equals a
lowercased whitelist entry or ends with `"." + entry`. -/
def is_url_whitelisted (url : String) (whitelist : List String) : Bool :=
  let domain := url_domain url
  whitelist.any fun w =>
    let wl := toLowerL w.data
    domain == wl || isSuffixL ('.' :: wl) domain

/-- Domain extraction in the order the spec words it: strip the scheme
off the raw URL (the scheme test is case-insensitive), take the
substring up to the first `/`, and only then lowercase. -/
def url_domain_spec (url : String) : List Char :=
  let stripped :=
    if isPrefixL "http://".data (toLowerL url.data) then url.data.drop 7
    else if isPrefixL "https://".data (toLowerL url.data) then url.data.drop 8
    else url.data
  toLowerL (stripped.takeWhile (fun c => c != '/'))

/-- Whitelist matching as the spec words it, built on `url_domain_spec`;
compared against the source's `is_url_whitelisted`. -/
def whitelisted_spec (url : String) (whitelist : List String) : Bool :=
  let domain := url_domain_spec url
  whitelist.any fun w =>
    let wl := toLowerL w.data
    domain == wl || isSuffixL ('.' :: wl) domain

theorem lowerChar_slash (c : Char) : (lowerChar c != '/') = (c != '/') := by
  unfold lowerChar
  split <;> simp_all

theorem takeWhile_toLowerL (l : List Char) :
    (toLowerL l).takeWhile (fun c => c != '/') =
      toLowerL (l.takeWhile (fun c => c != '/')) := by
  induction l with
  | nil => rfl
  | cons a t ih =>
    simp only [toLowerL, List.map_cons, List.takeWhile_cons, lowerChar_slash]
    by_cases h : (a != '/') = true
    · simp [h, toLowerL] at ih ⊢
      exact ih
    · simp [h]

theorem drop_toLowerL (n : Nat) (l : List Char) :
    (toLowerL l).drop n = toLowerL (l.drop n) := by
  simp [toLowerL, List.map_drop]

theorem url_domain_eq (url : String) : url_domain url = url_domain_spec url := by
  unfold url_domain url_domain_spec
  simp only []
  by_cases h1 : isPrefixL "http://".data (toLowerL url.data) = true
  · rw [if_pos h1, if_pos h1, drop_toLowerL, takeWhile_toLowerL]
  · rw [if_neg h1, if_neg h1]
    by_cases h2 : isPrefixL "https://".data (toLowerL url.data) = true
    · rw [if_pos h2, if_pos h2, drop_toLowerL, takeWhile_toLowerL]
    · rw [if_neg h2, if_neg h2, takeWhile_toLowerL]

/-! ## Flood detector: `spamming_ban` (banpro_handel.py, lines 167-207)

Per (group, sender) state.  `timestamps` models the
`deque(maxlen=spamming_count)` (oldest first), `lastBanned` the
`last_banned_time` entry (Python's `defaultdict(float)` default is `0.0`).
Wall-clock times are rationals. -/

/-- `self.spamming_count = 5`. -/
def spammingCount : Nat := 5

/-- `self.spamming_interval = 0.5`. -/
def spammingInterval : ℚ := 1 / 2

structure FloodState where
  timestamps : List ℚ
  lastBanned : ℚ
deriving DecidableEq

/-- Append to a `deque(maxlen := spammingCount)`: push on the right,
evicting from the left while above capacity. -/
def pushWindow (l : List ℚ) (t : ℚ) : List ℚ :=
  let l2 := l ++ [t]
  if spammingCount < l2.length then l2.drop (l2.length - spammingCount) else l2

/-- `all(interval < self.spamming_interval for interval in intervals)`
over the consecutive differences of a timestamp list. -/
def gapsOk : List ℚ → Bool
  | a :: b :: t => decide (b - a < spammingInterval) && gapsOk (b :: t)
  | _ => true

/-- `recent = list(timestamps)[-count:]`. -/
def lastWindow (l : List ℚ) : List ℚ := l.drop (l.length - spammingCount)

/-- One call of `spamming_ban`.  `isSelf` is `sender_id == self_id`,
`banTime` the value `db.get(group, "spamming_ban_time", 0)` read at this
call, `hasMsg` whether the event has message segments, `now` the current
time.  Returns the updated per-(group,sender) state and whether a flood
ban was flagged (the mute call itself is external; a failed mute does
not change the detector state). -/
def spamming_ban (s : FloodState) (isSelf : Bool) (banTime : ℚ)
    (hasMsg : Bool) (now : ℚ) : FloodState × Bool :=
  if isSelf || decide (banTime ≤ 0) || !hasMsg then (s, false)
  else if decide (now - s.lastBanned < banTime) then (s, false)
  else
    let ts := pushWindow s.timestamps now
    if decide (spammingCount ≤ ts.length) && gapsOk (lastWindow ts) then
      ({ timestamps := [], lastBanned := now }, true)
    else
      ({ s with timestamps := ts }, false)

/-! ## Settings store and `handle_spamming_ban_time`
(banpro_handel.py, lines 150-165) -/

/-- Modelled from the spec: the SettingsStore (`QQAdminDB`, not under
`src/`) is an async per-group key/value accessor with
`Get(group, key, default)` / `Set(group, key, value)` semantics; for a
fixed group we model the integer-valued keys as a total map from key to
stored value. -/
def DbSet (db : String → Int) (key : String) (v : Int) : String → Int :=
  fun k => if k = key then v else db k

/-- The `isinstance(time, int)` branch of `handle_spamming_ban_time`:
it stores the new flood-ban duration under the `"word_ban_time"` key. -/
def handle_spamming_ban_time (db : String → Int) (t : Int) : String → Int :=
  DbSet db "word_ban_time" t

/-! ## Vote consensus: `start_vote_mute`, `vote_mute`, `settle_vote`
(banpro_handel.py, lines 209-327)

State for a fixed group.  `cache` models `self.vote_cache.get(group_id)`
(a Python dict holds at most one record per key, hence `Option`);
`timers` the pending `settle_vote` tasks, each tagged with its fire time
and the ghost identity of the session it was created for; `banLog` the
`set_group_ban` calls issued; `settleLog` a ghost record of deferred
settlements that found a session present, as
(timer's session id, settled session id). -/

structure VoteRecord where
  target : String
  votes : List (String × Bool)
  ban_time : Int
  expire : ℚ
  threshold : Nat
  sid : Nat
deriving DecidableEq

structure VoteState where
  cache : Option VoteRecord
  timers : List (ℚ × Nat)
  banLog : List (String × Int)
  settleLog : List (Nat × Nat)
  nextSid : Nat
deriving DecidableEq

def VoteState.empty : VoteState := ⟨none, [], [], [], 0⟩

inductive StartResult where
  | ok
  | alreadyActive
deriving DecidableEq

inductive CastResult where
  | noActiveSession
  | passed
  | rejectedEarly
  | progress (agree disagree threshold : Nat)
deriving DecidableEq

inductive SettleOutcome where
  | skipped
  | passed
  | rejected
deriving DecidableEq

/-- `record["votes"][voter_id] = agree`: dict upsert. -/
def updVotes : List (String × Bool) → String → Bool → List (String × Bool)
  | [], v, a => [(v, a)]
  | (k, b) :: t, v, a =>
    if k = v then (v, a) :: t else (k, b) :: updVotes t v a

/-- `agree_count = sum(votes)`. -/
def agreeCount (votes : List (String × Bool)) : Nat :=
  (votes.filter (fun p => p.2)).length

/-- `disagree_count = len(votes) - agree_count`. -/
def disagreeCount (votes : List (String × Bool)) : Nat :=
  votes.length - agreeCount votes

/-- `start_vote_mute`: if the group already has a session, report and
change nothing; otherwise install a fresh session expiring at
`now + ttl` and schedule its deferred settlement at that time. -/
def start_vote_mute (s : VoteState) (target : String) (ban_time : Int)
    (now ttl : ℚ) (threshold : Nat) : VoteState × StartResult :=
  match s.cache with
  | some _ => (s, .alreadyActive)
  | none =>
    let sid := s.nextSid
    ({ s with
        cache := some ⟨target, [], ban_time, now + ttl, threshold, sid⟩
        timers := s.timers ++ [(now + ttl, sid)]
        nextSid := sid + 1 }, .ok)

/-- `vote_mute`: upsert the voter's stance, then resolve early when
either count reaches the threshold (agree first), else report
progress. -/
def vote_mute (s : VoteState) (voter : String) (agree : Bool) :
    VoteState × CastResult :=
  match s.cache with
  | none => (s, .noActiveSession)
  | some r =>
    let votes := updVotes r.votes voter agree
    let a := agreeCount votes
    let d := votes.length - a
    if r.threshold ≤ a then
      ({ s with
          cache := none
          banLog := s.banLog ++ [(r.target, r.ban_time)] }, .passed)
    else if r.threshold ≤ d then
      ({ s with cache := none }, .rejectedEarly)
    else
      ({ s with cache := some { r with votes := votes } },
        .progress a d r.threshold)

/-- The deferred `settle_vote` task firing.  `timer` is the pending task
being consumed; the source checks only whether *some* session for the
group is present (`record = self.vote_cache.get(group_id)`), never which
one, then decides by simple majority (ties reject) and frees the slot. -/
def settle_vote (s : VoteState) (timer : ℚ × Nat) :
    VoteState × SettleOutcome :=
  let timers2 := s.timers.erase timer
  match s.cache with
  | none => ({ s with timers := timers2 }, .skipped)
  | some r =>
    let a := agreeCount r.votes
    let d := r.votes.length - a
    if d < a then
      ({ s with
          timers := timers2
          cache := none
          banLog := s.banLog ++ [(r.target, r.ban_time)]
          settleLog := s.settleLog ++ [(timer.2, r.sid)] }, .passed)
    else
      ({ s with
          timers := timers2
          cache := none
          settleLog := s.settleLog ++ [(timer.2, r.sid)] }, .rejected)

/-! ## Join admission: `should_approve` (join_handle.py, lines 270-314)
and the counter clearing in `event_monitoring` (lines 360-366)

State for a fixed group.  `block_ids`, `min_level`, `accept_keywords`,
`reject_keywords` and `max_time` are the group's `GroupJoinData` fields;
`no_match_reject` is `jconf["no_match_reject"]`; `fail` is the
in-memory `_fail` counter read with default `0`
(`self._fail.get(key, 0)`), keyed here by user since the group is
fixed. -/

structure JoinState where
  block_ids : List String
  min_level : Int
  accept_keywords : List String
  reject_keywords : List String
  max_time : Int
  no_match_reject : Bool
  fail : String → Nat

/-- `any(kw.lower() in comment.lower() for kw in kws)`. -/
def kwMatch (comment : String) (kws : List String) : Bool :=
  kws.any fun k => containsL (toLowerL comment.data) (toLowerL k.data)

/-- Rule 2's test: `min_level > 0 and user_level is not None and
user_level < min_level`. -/
def levelLow (minLevel : Int) (level : Option Int) : Bool :=
  decide (0 < minLevel) &&
    match level with
    | some l => decide (l < minLevel)
    | none => false

/-- `add_block_id`: `set_block_ids(group, [*get_block_ids(group), uid])`. -/
def add_block_id (ids : List String) (uid : String) : List String :=
  ids ++ [uid]

/-- Rules 5-7 of `should_approve`: attempt counting (which increments
the counter whenever `max_time > 0`, blacklisting once it reaches the
limit), then the `no_match_reject` default, else manual review
(`None`). -/
def rules5to7 (st : JoinState) (user : String) :
    Option Bool × String × JoinState :=
  if 0 < st.max_time then
    let n := st.fail user + 1
    let st1 := { st with fail := fun k => if k = user then n else st.fail k }
    if st.max_time ≤ (n : Int) then
      (some false,
        "进群尝试次数已达上限(" ++ toString st.max_time ++ "次)，已拉黑",
        { st1 with block_ids := add_block_id st1.block_ids user })
    else if st.no_match_reject then (some false, "未命中进群关键词", st1)
    else (none, "未命中进群关键词", st1)
  else if st.no_match_reject then (some false, "未命中进群关键词", st)
  else (none, "未命中进群关键词", st)

/-- `should_approve(group, user, comment, level)`; the first component
is `True`/`False`/`None` (approve / reject / manual), the second the
reason string, the third the state after side effects.  `comment` is
`None` or a string; Python's `if comment:` treats the empty string like
`None`. -/
def should_approve (st : JoinState) (user : String) (comment : Option String)
    (level : Option Int) : Option Bool × String × JoinState :=
  if st.block_ids.contains user then (some false, "黑名单用户", st)
  else if levelLow st.min_level level then
    (some false,
      "QQ等级过低(" ++ ((level.map toString).getD "") ++ "<" ++
        toString st.min_level ++ ")", st)
  else
    match comment with
    | some c =>
      if c != "" then
        if kwMatch c st.reject_keywords then
          (some false, "命中进群黑词，已拉黑",
            { st with block_ids := add_block_id st.block_ids user })
        else if !st.accept_keywords.isEmpty && kwMatch c st.accept_keywords then
          (some true, "命中进群白词", st)
        else rules5to7 st user
      else rules5to7 st user
    | none => rules5to7 st user

/-- `should_approve` as invoked from `event_monitoring`: on approval the
caller pops the `_fail` entry (`self._fail.pop(key, None)`); since the
counter is always read with default `0`, popping is modelled as
resetting to `0`. -/
def event_monitoring_decide (st : JoinState) (user : String)
    (comment : Option String) (level : Option Int) :
    Option Bool × String × JoinState :=
  let r := should_approve st user comment level
  if r.1 = some true then
    (r.1, r.2.1,
      { r.2.2 with fail := fun k => if k = user then 0 else r.2.2.fail k })
  else r

/-! ## Theorems -/

/-- C9: a URL is judged whitelisted iff, after stripping a leading
`http://` or `https://` prefix, taking the substring up to the first
`/`, and lowercasing both sides, the domain equals some whitelist entry
or ends with `"."` followed by that entry; in particular
`https://sub.example.com/path` is whitelisted when `example.com` is
listed and `https://evilexample.com` is not. -/
theorem url_whitelist_spec_equiv :
    (∀ (url : String) (wl : List String),
        is_url_whitelisted url wl = whitelisted_spec url wl) ∧
    is_url_whitelisted "https://sub.example.com/path" ["example.com"] = true ∧
    is_url_whitelisted "https://evilexample.com" ["example.com"] = false := by
  refine ⟨fun url wl => ?_, by decide, by decide⟩
  unfold is_url_whitelisted whitelisted_spec
  rw [url_domain_eq]

/-- C10: the flood-duration command `handle_spamming_ban_time` stores
its value under the `"word_ban_time"` key, so the `"spamming_ban_time"`
key that `spamming_ban` actually reads is untouched, the flood detector
behaves exactly as before, and the word-ban duration is overwritten. -/
theorem spamming_ban_time_sets_word_key (db : String → Int) (t : Int) :
    handle_spamming_ban_time db t "spamming_ban_time" =
      db "spamming_ban_time" ∧
    handle_spamming_ban_time db t "word_ban_time" = t ∧
    ∀ (s : FloodState) (isSelf hasMsg : Bool) (now : ℚ),
      spamming_ban s isSelf
          ((handle_spamming_ban_time db t "spamming_ban_time" : Int) : ℚ)
          hasMsg now =
        spamming_ban s isSelf ((db "spamming_ban_time" : Int) : ℚ)
          hasMsg now := by
  have h1 : handle_spamming_ban_time db t "spamming_ban_time" =
      db "spamming_ban_time" := by
    show (if "spamming_ban_time" = "word_ban_time" then t
      else db "spamming_ban_time") = db "spamming_ban_time"
    rw [if_neg (by decide)]
  refine ⟨h1, ?_, fun s isSelf hasMsg now => by rw [h1]⟩
  show (if "word_ban_time" = "word_ban_time" then t
    else db "word_ban_time") = t
  rw [if_pos rfl]

/-- C7: a blacklisted user is rejected with the blacklist reason
regardless of comment and level, with no state change. -/
theorem join_blacklist_short_circuit (st : JoinState) (user : String)
    (comment : Option String) (level : Option Int)
    (h : st.block_ids.contains user = true) :
    event_monitoring_decide st user comment level =
      (some false, "黑名单用户", st) := by
  have hsa : should_approve st user comment level =
      (some false, "黑名单用户", st) := by
    unfold should_approve
    rw [if_pos h]
  unfold event_monitoring_decide
  rw [hsa]
  rfl

/-- Witness for C7 at a concrete blacklisted user. -/
theorem join_blacklist_short_circuit_witness :
    event_monitoring_decide ⟨["9"], 5, ["ok"], ["bad"], 3, false, fun _ => 0⟩
        "9" (some "an ok comment") (some 1) =
      (some false, "黑名单用户",
        ⟨["9"], 5, ["ok"], ["bad"], 3, false, fun _ => 0⟩) :=
  join_blacklist_short_circuit _ "9" _ _ (by decide)

/-- C6: `StartVote` on a group with an active session reports
`AlreadyActive` and changes nothing (session, timers, logs all kept);
`CastVote` on a group with no session reports `NoActiveSession` and
changes nothing. -/
theorem vote_noop_on_bad_calls (s : VoteState) :
    (s.cache ≠ none →
      ∀ (target : String) (bt : Int) (now ttl : ℚ) (thr : Nat),
        start_vote_mute s target bt now ttl thr = (s, .alreadyActive)) ∧
    (s.cache = none → ∀ (voter : String) (agree : Bool),
        vote_mute s voter agree = (s, .noActiveSession)) := by
  constructor
  · intro h target bt now ttl thr
    unfold start_vote_mute
    match hc : s.cache with
    | some r => rfl
    | none => exact absurd hc h
  · intro h voter agree
    unfold vote_mute
    rw [h]

/-- Witness for C6 at a concrete occupied and a concrete empty state. -/
theorem vote_noop_on_bad_calls_witness :
    start_vote_mute ⟨some ⟨"7", [], 60, 100, 2, 0⟩, [(100, 0)], [], [], 1⟩
        "8" 30 5 60 2 =
      (⟨some ⟨"7", [], 60, 100, 2, 0⟩, [(100, 0)], [], [], 1⟩,
        .alreadyActive) ∧
    vote_mute VoteState.empty "v" true =
      (VoteState.empty, .noActiveSession) :=
  ⟨(vote_noop_on_bad_calls _).1 (by decide) "8" 30 5 60 2,
    (vote_noop_on_bad_calls _).2 rfl "v" true⟩

/-- C5: a deferred settlement that finds a session present bans the
target iff strictly more agree than disagree votes were cast; otherwise
(ties included, in particular 0 vs 0) it resolves to rejected with no
ban; in both cases the slot is freed. -/
theorem settle_majority_decision (s : VoteState) (timer : ℚ × Nat)
    (r : VoteRecord) (h : s.cache = some r) :
    (disagreeCount r.votes < agreeCount r.votes →
      settle_vote s timer =
        ({ s with
            timers := s.timers.erase timer
            cache := none
            banLog := s.banLog ++ [(r.target, r.ban_time)]
            settleLog := s.settleLog ++ [(timer.2, r.sid)] }, .passed)) ∧
    (¬ disagreeCount r.votes < agreeCount r.votes →
      settle_vote s timer =
        ({ s with
            timers := s.timers.erase timer
            cache := none
            settleLog := s.settleLog ++ [(timer.2, r.sid)] }, .rejected)) := by
  refine ⟨fun hlt => ?_, fun hge => ?_⟩
  · have hlt2 : r.votes.length - agreeCount r.votes < agreeCount r.votes := hlt
    unfold settle_vote
    rw [h]
    dsimp only
    rw [if_pos hlt2]
  · have hge2 : ¬ r.votes.length - agreeCount r.votes < agreeCount r.votes := hge
    unfold settle_vote
    rw [h]
    dsimp only
    rw [if_neg hge2]

/-- Witness for C5: a 1-0 session is banned, an empty (0 vs 0) session
is rejected without a ban, and both free the slot. -/
theorem settle_majority_decision_witness :
    settle_vote ⟨some ⟨"7", [("a", true)], 60, 100, 5, 0⟩, [(100, 0)], [], [], 1⟩
        (100, 0) =
      (⟨none, [], [("7", 60)], [(0, 0)], 1⟩, .passed) ∧
    settle_vote ⟨some ⟨"7", [], 60, 100, 5, 0⟩, [(100, 0)], [], [], 1⟩
        (100, 0) =
      (⟨none, [], [], [(0, 0)], 1⟩, .rejected) := by
  constructor
  · rw [(settle_majority_decision
      ⟨some ⟨"7", [("a", true)], 60, 100, 5, 0⟩, [(100, 0)], [], [], 1⟩
      (100, 0) ⟨"7", [("a", true)], 60, 100, 5, 0⟩ rfl).1 (by decide)]
    rfl
  · rw [(settle_majority_decision
      ⟨some ⟨"7", [], 60, 100, 5, 0⟩, [(100, 0)], [], [], 1⟩
      (100, 0) ⟨"7", [], 60, 100, 5, 0⟩ rfl).2 (by decide)]
    rfl

/-- A deferred settlement that finds the slot empty only completes its
task: no ban, no settlement record, slot still empty. -/
theorem settle_vote_skip (t : VoteState) (tm : ℚ × Nat) (h : t.cache = none) :
    settle_vote t tm = ({ t with timers := t.timers.erase tm }, .skipped) := by
  unfold settle_vote
  rw [h]

/-- C1 (counterexample to the claim as stated): the deferred settlement
checks only that *some* session for the group is present, never which
one, so a session started after an earlier session's early resolution
*is* settled by the earlier session's still-pending timer.  Concretely:
session 0 (started at t=0, ttl 60, threshold 2) passes early at t=2
after two agree votes; session 1 starts at t=3 (expiry 63); when session
0's timer fires at t=60 it finds session 1 present and settles it —
before session 1's own expiry and by a timer that is not its own. -/
theorem vote_stale_timer_settles_new_session :
    (settle_vote
        (start_vote_mute
          (vote_mute
            (vote_mute
              (start_vote_mute VoteState.empty "T" 600 0 60 2).1
              "v1" true).1
            "v2" true).1
          "U" 600 3 60 2).1
        (60, 0)).1.settleLog = [(0, 1)] ∧
    (0 : Nat) ≠ 1 ∧
    (settle_vote
        (start_vote_mute
          (vote_mute
            (vote_mute
              (start_vote_mute VoteState.empty "T" 600 0 60 2).1
              "v1" true).1
            "v2" true).1
          "U" 600 3 60 2).1
        (60, 0)).2 = .rejected := by
  refine ⟨?_, by decide, ?_⟩ <;> rfl

/-- C1 (amended): per group at most one session exists (the slot is a
single optional record); a deferred settlement firing on an empty slot
performs no ban, records no settlement and leaves the slot empty; every
settlement and every early resolution frees the slot, so an immediately
following `CastVote` sees `NoActiveSession`; a second settlement right
after a settlement can neither settle nor ban again.  However, a
settlement that finds any session present settles it purely by
presence, whether or not the session is the one its timer was created
for (so a session started after an earlier session's resolution is
settled by the earlier session's timer if that timer fires while the
new session is active). -/
theorem vote_resolution_frees_slot (s : VoteState) (timer : ℚ × Nat) :
    (s.cache = none →
      settle_vote s timer =
        ({ s with timers := s.timers.erase timer }, .skipped)) ∧
    ((settle_vote s timer).1.cache = none ∧
      ∀ (voter : String) (agree : Bool),
        (vote_mute (settle_vote s timer).1 voter agree).2 =
          .noActiveSession) ∧
    (∀ (voter : String) (agree : Bool),
      ((vote_mute s voter agree).2 = .passed ∨
        (vote_mute s voter agree).2 = .rejectedEarly) →
      (vote_mute s voter agree).1.cache = none ∧
      ∀ (v2 : String) (a2 : Bool),
        (vote_mute (vote_mute s voter agree).1 v2 a2).2 =
          .noActiveSession) ∧
    (∀ (r : VoteRecord), s.cache = some r →
      (settle_vote s timer).1.settleLog =
        s.settleLog ++ [(timer.2, r.sid)]) ∧
    (∀ (timer2 : ℚ × Nat),
      (settle_vote (settle_vote s timer).1 timer2).1.settleLog =
        (settle_vote s timer).1.settleLog ∧
      (settle_vote (settle_vote s timer).1 timer2).1.banLog =
        (settle_vote s timer).1.banLog) := by
  have hfree : (settle_vote s timer).1.cache = none := by
    unfold settle_vote
    match hc : s.cache with
    | none => rfl
    | some r =>
      dsimp only
      by_cases hlt : r.votes.length - agreeCount r.votes < agreeCount r.votes
      · rw [if_pos hlt]
      · rw [if_neg hlt]
  have hcastnone : ∀ (t : VoteState), t.cache = none →
      ∀ (voter : String) (agree : Bool),
        (vote_mute t voter agree).2 = .noActiveSession := by
    intro t ht voter agree
    unfold vote_mute
    rw [ht]
  have hcastfree : ∀ (voter : String) (agree : Bool),
      ((vote_mute s voter agree).2 = .passed ∨
        (vote_mute s voter agree).2 = .rejectedEarly) →
      (vote_mute s voter agree).1.cache = none := by
    intro voter agree
    unfold vote_mute
    cases hc : s.cache with
    | none =>
      dsimp only
      rintro (h2 | h2) <;> simp at h2
    | some r =>
      dsimp only
      by_cases h1 : r.threshold ≤ agreeCount (updVotes r.votes voter agree)
      · rw [if_pos h1]
        intro _
        rfl
      · rw [if_neg h1]
        by_cases h2 : r.threshold ≤
            (updVotes r.votes voter agree).length -
              agreeCount (updVotes r.votes voter agree)
        · rw [if_pos h2]
          intro _
          rfl
        · rw [if_neg h2]
          rintro (h3 | h3) <;> simp at h3
  refine ⟨?_, ⟨hfree, hcastnone _ hfree⟩, ?_, ?_, ?_⟩
  · intro hnone
    exact settle_vote_skip s timer hnone
  · intro voter agree hres
    exact ⟨hcastfree voter agree hres, hcastnone _ (hcastfree voter agree hres)⟩
  · intro r hr
    unfold settle_vote
    rw [hr]
    dsimp only
    by_cases hlt : r.votes.length - agreeCount r.votes < agreeCount r.votes
    · rw [if_pos hlt]
    · rw [if_neg hlt]
  · intro timer2
    rw [settle_vote_skip _ timer2 hfree]
    exact ⟨rfl, rfl⟩

/-- Witness for C1 (amended) at a concrete state: an empty slot is
skipped without a ban, and a settlement on a present session logs that
session by presence. -/
theorem vote_resolution_frees_slot_witness :
    settle_vote VoteState.empty (5, 0) = (VoteState.empty, .skipped) ∧
    (settle_vote ⟨some ⟨"7", [], 60, 100, 2, 3⟩, [(100, 3)], [], [], 4⟩
        (100, 0)).1.settleLog = [(0, 3)] := by
  constructor
  · rw [(vote_resolution_frees_slot VoteState.empty (5, 0)).1 rfl]
    rfl
  · rw [(vote_resolution_frees_slot
      ⟨some ⟨"7", [], 60, 100, 2, 3⟩, [(100, 3)], [], [], 4⟩
      (100, 0)).2.2.2.1 ⟨"7", [], 60, 100, 2, 3⟩ rfl]
    rfl

/-- C2: with a positive configured flood-ban duration, the sender not
the bot and an event carrying messages, a call outside the cooldown
whose updated window holds `spammingCount` timestamps with all
consecutive gaps strictly below `spammingInterval` flags a ban, clears
the window and sets the cooldown mark to `now`; afterwards every call
within `banTime` of the trigger returns no ban and leaves the state
untouched (so the run triggers exactly once); conversely a window whose
last `spammingCount` entries contain a gap `≥ spammingInterval` never
triggers. -/
theorem flood_trigger_spec (s : FloodState) (banTime now : ℚ)
    (hbt : 0 < banTime) (hcool : banTime ≤ now - s.lastBanned) :
    ((decide (spammingCount ≤ (pushWindow s.timestamps now).length)
        && gapsOk (lastWindow (pushWindow s.timestamps now))) = true →
      spamming_ban s false banTime true now =
        ({ timestamps := [], lastBanned := now }, true) ∧
      ∀ (s2 : FloodState) (now2 : ℚ), s2.lastBanned = now →
        now2 - now < banTime →
        spamming_ban s2 false banTime true now2 = (s2, false)) ∧
    (decide (spammingCount ≤ (pushWindow s.timestamps now).length) = true →
      gapsOk (lastWindow (pushWindow s.timestamps now)) = false →
      spamming_ban s false banTime true now =
        ({ s with timestamps := pushWindow s.timestamps now }, false)) := by
  have hd0 : decide (banTime ≤ 0) = false := decide_eq_false (not_le.mpr hbt)
  have hd1 : decide (now - s.lastBanned < banTime) = false :=
    decide_eq_false (not_lt.mpr hcool)
  constructor
  · intro htrig
    constructor
    · unfold spamming_ban
      simp only [hd0, hd1, Bool.not_true, Bool.or_false, Bool.false_or,
        Bool.false_eq_true, if_false]
      rw [htrig]
      rfl
    · intro s2 now2 h2 hlt2
      have hd2 : decide (now2 - s2.lastBanned < banTime) = true := by
        rw [h2]
        exact decide_eq_true hlt2
      unfold spamming_ban
      simp only [hd0, hd2, Bool.not_true, Bool.or_false, Bool.false_or,
        Bool.false_eq_true, if_false, if_true]
  · intro hlen hgap
    unfold spamming_ban
    simp only [hd0, hd1, Bool.not_true, Bool.or_false, Bool.false_or,
      Bool.false_eq_true, if_false]
    rw [hlen, hgap]
    rfl

/-- Witness for C2: a 5-burst with 0.1s gaps triggers once and clears
the window, the next call 29.6s later is silent, and a window whose
oldest gap is 0.6s does not trigger. -/
theorem flood_trigger_spec_witness :
    spamming_ban ⟨[0, 1/10, 1/5, 3/10], -100⟩ false 60 true (2/5) =
      (⟨[], 2/5⟩, true) ∧
    spamming_ban ⟨[], 2/5⟩ false 60 true 30 = (⟨[], 2/5⟩, false) ∧
    spamming_ban ⟨[0, 3/5, 7/10, 4/5], -100⟩ false 60 true (9/10) =
      (⟨[0, 3/5, 7/10, 4/5, 9/10], -100⟩, false) := by
  have h1 := flood_trigger_spec ⟨[0, 1/10, 1/5, 3/10], -100⟩ 60 (2/5)
    (by norm_num) (by norm_num)
  have h2 := flood_trigger_spec ⟨[0, 3/5, 7/10, 4/5], -100⟩ 60 (9/10)
    (by norm_num) (by norm_num)
  exact ⟨(h1.1 (by norm_num [pushWindow, gapsOk, lastWindow, spammingCount, spammingInterval])).1,
    (h1.1 (by norm_num [pushWindow, gapsOk, lastWindow, spammingCount, spammingInterval])).2 ⟨[], 2/5⟩ 30 rfl (by norm_num),
    h2.2 (by norm_num [pushWindow, spammingCount])
      (by norm_num [pushWindow, gapsOk, lastWindow, spammingCount, spammingInterval])⟩

/-- C4 (counterexample to the claim as stated): the cooldown comparison
reads the *currently configured* duration at each observation, not the
duration in effect at the previous trigger.  With a trigger recorded at
t=10 and an otherwise identical observation at t=50, configuring 30
seconds lets the detector trigger again while configuring 100 seconds
suppresses it — the configured value changes the comparison, which the
claim says cannot happen. -/
theorem flood_cooldown_uses_current_config :
    (spamming_ban ⟨[248/5, 497/10, 249/5, 499/10], 10⟩
        false 30 true 50).2 = true ∧
    (spamming_ban ⟨[248/5, 497/10, 249/5, 499/10], 10⟩
        false 100 true 50).2 = false := by
  constructor <;>
    norm_num [spamming_ban, pushWindow, gapsOk, lastWindow, spammingCount,
      spammingInterval]

/-- C4 (amended): the flood cooldown compares `now - lastBanned` against
the flood-ban duration configured at the time of the observation being
processed; within that duration of the last trigger nothing happens,
outside it the sliding-window check runs with the current duration. -/
theorem flood_cooldown_current_duration (s : FloodState) (banTime now : ℚ)
    (hbt : 0 < banTime) :
    (now - s.lastBanned < banTime →
      spamming_ban s false banTime true now = (s, false)) ∧
    (banTime ≤ now - s.lastBanned →
      spamming_ban s false banTime true now =
        (if (decide (spammingCount ≤ (pushWindow s.timestamps now).length)
            && gapsOk (lastWindow (pushWindow s.timestamps now))) = true then
          ({ timestamps := [], lastBanned := now }, true)
        else
          ({ s with timestamps := pushWindow s.timestamps now }, false))) := by
  have hd0 : decide (banTime ≤ 0) = false := decide_eq_false (not_le.mpr hbt)
  constructor
  · intro hin
    unfold spamming_ban
    simp only [hd0, decide_eq_true hin, Bool.not_true, Bool.or_false,
      Bool.false_or, Bool.false_eq_true, if_false, if_true]
  · intro hout
    unfold spamming_ban
    simp only [hd0, decide_eq_false (not_lt.mpr hout), Bool.not_true,
      Bool.or_false, Bool.false_or, Bool.false_eq_true, if_false]

/-- Witness for C4 (amended): at t=50 after a trigger at t=10, a
configured duration of 100 seconds suppresses the check while a
configured duration of 30 seconds lets it run and trigger. -/
theorem flood_cooldown_current_duration_witness :
    spamming_ban ⟨[248/5, 497/10, 249/5, 499/10], 10⟩ false 100 true 50 =
      (⟨[248/5, 497/10, 249/5, 499/10], 10⟩, false) ∧
    spamming_ban ⟨[248/5, 497/10, 249/5, 499/10], 10⟩ false 30 true 50 =
      (⟨[], 50⟩, true) := by
  constructor
  · exact (flood_cooldown_current_duration
      ⟨[248/5, 497/10, 249/5, 499/10], 10⟩ 100 50 (by norm_num)).1
      (by norm_num)
  · rw [(flood_cooldown_current_duration
      ⟨[248/5, 497/10, 249/5, 499/10], 10⟩ 30 50 (by norm_num)).2
      (by norm_num)]
    norm_num [pushWindow, gapsOk, lastWindow, spammingCount, spammingInterval]

/-! ### Join-admission step lemmas -/

/-- When `should_approve` does not approve, `event_monitoring` leaves
the `_fail` counter alone. -/
theorem event_decide_of_not_approve (st : JoinState) (user : String)
    (o : Option String) (level : Option Int) (res : Option Bool)
    (why : String) (st2 : JoinState)
    (h : should_approve st user o level = (res, why, st2))
    (hres : res ≠ some true) :
    event_monitoring_decide st user o level = (res, why, st2) := by
  unfold event_monitoring_decide
  rw [h]
  dsimp only
  rw [if_neg hres]

/-- When `should_approve` approves, `event_monitoring` additionally
pops the `_fail` counter for the user. -/
theorem event_decide_of_approve (st : JoinState) (user : String)
    (o : Option String) (level : Option Int) (why : String)
    (st2 : JoinState)
    (h : should_approve st user o level = (some true, why, st2)) :
    event_monitoring_decide st user o level =
      (some true, why,
        { st2 with fail := fun k => if k = user then 0 else st2.fail k }) := by
  unfold event_monitoring_decide
  rw [h]
  dsimp only
  rw [if_pos rfl]

/-- An unmatched request below the attempt limit with auto-reject off:
rules 1-4 all pass through, rule 5 increments the counter, rule 7 asks
for manual review. -/
theorem should_approve_manual (st : JoinState) (user : String)
    (o : Option String) (level : Option Int)
    (hb : st.block_ids.contains user = false)
    (hl : levelLow st.min_level level = false)
    (hkw : ∀ c, o = some c → (c != "") = true →
      kwMatch c st.reject_keywords = false ∧
        kwMatch c st.accept_keywords = false)
    (hmax : 0 < st.max_time)
    (hlt : ((st.fail user + 1 : Nat) : Int) < st.max_time)
    (hn : st.no_match_reject = false) :
    should_approve st user o level =
      (none, "未命中进群关键词",
        { st with
            fail := fun k => if k = user then st.fail user + 1
              else st.fail k }) := by
  have hr57 : rules5to7 st user =
      (none, "未命中进群关键词",
        { st with
            fail := fun k => if k = user then st.fail user + 1
              else st.fail k }) := by
    unfold rules5to7
    rw [if_pos hmax]
    dsimp only
    rw [if_neg (not_le.mpr hlt)]
    simp only [hn, Bool.false_eq_true, if_false]
  cases o with
  | none =>
    unfold should_approve
    simp only [hb, Bool.false_eq_true, if_false, hl]
    exact hr57
  | some c =>
    unfold should_approve
    simp only [hb, Bool.false_eq_true, if_false, hl]
    by_cases hc : (c != "") = true
    · obtain ⟨hkr, hka⟩ := hkw c rfl hc
      rw [if_pos hc]
      simp only [hkr, Bool.false_eq_true, if_false, hka, Bool.and_false]
      exact hr57
    · rw [if_neg hc]
      exact hr57

/-- An unmatched request that reaches the attempt limit: rule 5 rejects
and auto-blacklists. -/
theorem should_approve_limit (st : JoinState) (user : String)
    (o : Option String) (level : Option Int)
    (hb : st.block_ids.contains user = false)
    (hl : levelLow st.min_level level = false)
    (hkw : ∀ c, o = some c → (c != "") = true →
      kwMatch c st.reject_keywords = false ∧
        kwMatch c st.accept_keywords = false)
    (hmax : 0 < st.max_time)
    (hge : st.max_time ≤ ((st.fail user + 1 : Nat) : Int)) :
    should_approve st user o level =
      (some false,
        "进群尝试次数已达上限(" ++ toString st.max_time ++ "次)，已拉黑",
        { st with
            fail := fun k => if k = user then st.fail user + 1
              else st.fail k
            block_ids := add_block_id st.block_ids user }) := by
  have hr57 : rules5to7 st user =
      (some false,
        "进群尝试次数已达上限(" ++ toString st.max_time ++ "次)，已拉黑",
        { st with
            fail := fun k => if k = user then st.fail user + 1
              else st.fail k
            block_ids := add_block_id st.block_ids user }) := by
    unfold rules5to7
    rw [if_pos hmax]
    dsimp only
    rw [if_pos hge]
  cases o with
  | none =>
    unfold should_approve
    simp only [hb, Bool.false_eq_true, if_false, hl]
    exact hr57
  | some c =>
    unfold should_approve
    simp only [hb, Bool.false_eq_true, if_false, hl]
    by_cases hc : (c != "") = true
    · obtain ⟨hkr, hka⟩ := hkw c rfl hc
      rw [if_pos hc]
      simp only [hkr, Bool.false_eq_true, if_false, hka, Bool.and_false]
      exact hr57
    · rw [if_neg hc]
      exact hr57

/-- A comment hitting an accept keyword (and no earlier rule) approves
without touching the state. -/
theorem should_approve_accept (st : JoinState) (user : String)
    (c : String) (level : Option Int)
    (hb : st.block_ids.contains user = false)
    (hl : levelLow st.min_level level = false)
    (hc : (c != "") = true)
    (hr : kwMatch c st.reject_keywords = false)
    (ha : kwMatch c st.accept_keywords = true) :
    should_approve st user (some c) level = (some true, "命中进群白词", st) := by
  have hne : st.accept_keywords.isEmpty = false := by
    cases hak : st.accept_keywords with
    | nil =>
      rw [hak] at ha
      simp [kwMatch] at ha
    | cons x xs => rfl
  unfold should_approve
  simp only [hb, Bool.false_eq_true, if_false, hl]
  rw [if_pos hc]
  simp only [hr, Bool.false_eq_true, if_false, hne, ha,
    Bool.not_false, Bool.true_and, if_true]

/-- C8: a join request whose comment contains (case-insensitively) a
configured accept keyword, and that no earlier rule catches, is
approved, and the attempt counter for that (group,user) is cleared to
zero; nothing else in the state changes. -/
theorem join_accept_keyword_clears_counter (st : JoinState) (user : String)
    (c : String) (level : Option Int)
    (hb : st.block_ids.contains user = false)
    (hl : levelLow st.min_level level = false)
    (hc : (c != "") = true)
    (hr : kwMatch c st.reject_keywords = false)
    (ha : kwMatch c st.accept_keywords = true) :
    event_monitoring_decide st user (some c) level =
      (some true, "命中进群白词",
        { st with fail := fun k => if k = user then 0 else st.fail k }) :=
  event_decide_of_approve st user (some c) level _ st
    (should_approve_accept st user c level hb hl hc hr ha)

/-- Witness for C8: a mixed-case accept keyword hit approves and resets
a counter that stood at 7. -/
theorem join_accept_keyword_clears_counter_witness :
    (event_monitoring_decide
        ⟨[], 0, ["FOO"], ["spam"], 3, false, fun _ => 7⟩
        "u" (some "say foo now") none).1 = some true ∧
    (event_monitoring_decide
        ⟨[], 0, ["FOO"], ["spam"], 3, false, fun _ => 7⟩
        "u" (some "say foo now") none).2.2.fail "u" = 0 := by
  rw [join_accept_keyword_clears_counter
    ⟨[], 0, ["FOO"], ["spam"], 3, false, fun _ => 7⟩
    "u" "say foo now" none (by decide) (by decide) (by decide)
    (by decide) (by decide)]
  exact ⟨rfl, by decide⟩

/-- C3: with the attempt limit configured to 3, auto-reject off, a user
who is not blacklisted, passes the level gate and whose comments match
no accept or reject keyword, three consecutive decisions yield Manual,
Manual, Reject, and after the third the user is in the group's
blacklist. -/
theorem join_three_attempts (st : JoinState) (user : String)
    (o1 o2 o3 : Option String) (level : Option Int)
    (hb : st.block_ids.contains user = false)
    (hl : levelLow st.min_level level = false)
    (hk1 : ∀ c, o1 = some c → (c != "") = true →
      kwMatch c st.reject_keywords = false ∧
        kwMatch c st.accept_keywords = false)
    (hk2 : ∀ c, o2 = some c → (c != "") = true →
      kwMatch c st.reject_keywords = false ∧
        kwMatch c st.accept_keywords = false)
    (hk3 : ∀ c, o3 = some c → (c != "") = true →
      kwMatch c st.reject_keywords = false ∧
        kwMatch c st.accept_keywords = false)
    (hm : st.max_time = 3)
    (hn : st.no_match_reject = false)
    (hf : st.fail user = 0) :
    (event_monitoring_decide st user o1 level).1 = none ∧
    (event_monitoring_decide
      (event_monitoring_decide st user o1 level).2.2 user o2 level).1 =
        none ∧
    (event_monitoring_decide (event_monitoring_decide
      (event_monitoring_decide st user o1 level).2.2 user o2 level).2.2
      user o3 level).1 = some false ∧
    user ∈ (event_monitoring_decide (event_monitoring_decide
      (event_monitoring_decide st user o1 level).2.2 user o2 level).2.2
      user o3 level).2.2.block_ids := by
  have hmax : 0 < st.max_time := by rw [hm]; norm_num
  have e1 : event_monitoring_decide st user o1 level =
      (none, "未命中进群关键词",
        { st with
            fail := fun k => if k = user then st.fail user + 1
              else st.fail k }) :=
    event_decide_of_not_approve _ _ _ _ _ _ _
      (should_approve_manual st user o1 level hb hl hk1 hmax
        (by rw [hf, hm]; norm_num) hn)
      (by decide)
  rw [e1]
  dsimp only
  refine ⟨rfl, ?_⟩
  generalize hS1 : ({ st with
      fail := fun k => if k = user then st.fail user + 1
        else st.fail k } : JoinState) = S1
  have hb1 : S1.block_ids.contains user = false := by rw [← hS1]; exact hb
  have hl1 : levelLow S1.min_level level = false := by rw [← hS1]; exact hl
  have hrk1 : S1.reject_keywords = st.reject_keywords := by rw [← hS1]
  have hak1 : S1.accept_keywords = st.accept_keywords := by rw [← hS1]
  have hm1 : S1.max_time = 3 := by rw [← hS1]; exact hm
  have hn1 : S1.no_match_reject = false := by rw [← hS1]; exact hn
  have hf1 : S1.fail user = 1 := by
    rw [← hS1]
    show (if user = user then st.fail user + 1 else st.fail user) = 1
    rw [if_pos rfl, hf]
  have e2 : event_monitoring_decide S1 user o2 level =
      (none, "未命中进群关键词",
        { S1 with
            fail := fun k => if k = user then S1.fail user + 1
              else S1.fail k }) :=
    event_decide_of_not_approve _ _ _ _ _ _ _
      (should_approve_manual S1 user o2 level hb1 hl1
        (by
          intro c hoc hcne
          rw [hrk1, hak1]
          exact hk2 c hoc hcne)
        (by rw [hm1]; norm_num)
        (by rw [hf1, hm1]; norm_num) hn1)
      (by decide)
  rw [e2]
  dsimp only
  refine ⟨rfl, ?_⟩
  generalize hS2 : ({ S1 with
      fail := fun k => if k = user then S1.fail user + 1
        else S1.fail k } : JoinState) = S2
  have hb2 : S2.block_ids.contains user = false := by rw [← hS2]; exact hb1
  have hl2 : levelLow S2.min_level level = false := by rw [← hS2]; exact hl1
  have hrk2 : S2.reject_keywords = st.reject_keywords := by
    rw [← hS2]; exact hrk1
  have hak2 : S2.accept_keywords = st.accept_keywords := by
    rw [← hS2]; exact hak1
  have hm2 : S2.max_time = 3 := by rw [← hS2]; exact hm1
  have hf2 : S2.fail user = 2 := by
    rw [← hS2]
    show (if user = user then S1.fail user + 1 else S1.fail user) = 2
    rw [if_pos rfl, hf1]
  have e3 : event_monitoring_decide S2 user o3 level =
      (some false,
        "进群尝试次数已达上限(" ++ toString S2.max_time ++ "次)，已拉黑",
        { S2 with
            fail := fun k => if k = user then S2.fail user + 1
              else S2.fail k
            block_ids := add_block_id S2.block_ids user }) :=
    event_decide_of_not_approve _ _ _ _ _ _ _
      (should_approve_limit S2 user o3 level hb2 hl2
        (by
          intro c hoc hcne
          rw [hrk2, hak2]
          exact hk3 c hoc hcne)
        (by rw [hm2]; norm_num)
        (by rw [hf2, hm2]; norm_num))
      (by decide)
  rw [e3]
  dsimp only
  exact ⟨rfl, by simp [add_block_id]⟩

/-- Witness for C3: three identical keyword-free requests against a
fresh group configured with limit 3. -/
theorem join_three_attempts_witness :
    (event_monitoring_decide ⟨[], 0, ["x"], ["y"], 3, false, fun _ => 0⟩
        "u" (some "hello") none).1 = none ∧
    (event_monitoring_decide
      (event_monitoring_decide ⟨[], 0, ["x"], ["y"], 3, false, fun _ => 0⟩
        "u" (some "hello") none).2.2 "u" (some "hello") none).1 = none ∧
    (event_monitoring_decide (event_monitoring_decide
      (event_monitoring_decide ⟨[], 0, ["x"], ["y"], 3, false, fun _ => 0⟩
        "u" (some "hello") none).2.2 "u" (some "hello") none).2.2
      "u" (some "hello") none).1 = some false ∧
    "u" ∈ (event_monitoring_decide (event_monitoring_decide
      (event_monitoring_decide ⟨[], 0, ["x"], ["y"], 3, false, fun _ => 0⟩
        "u" (some "hello") none).2.2 "u" (some "hello") none).2.2
      "u" (some "hello") none).2.2.block_ids :=
  join_three_attempts ⟨[], 0, ["x"], ["y"], 3, false, fun _ => 0⟩ "u"
    (some "hello") (some "hello") (some "hello") none
    (by decide) (by decide)
    (by intro c hc hne; cases hc; exact ⟨by decide, by decide⟩)
    (by intro c hc hne; cases hc; exact ⟨by decide, by decide⟩)
    (by intro c hc hne; cases hc; exact ⟨by decide, by decide⟩)
    rfl rfl rfl

end QQAdmin
